import Mathlib

/-!
Shallow embedding of gix-archive's tar/passthrough archive writer
(src/gix-archive/src/write.rs) and proofs about its behaviour.

Bytes are modelled as lists of naturals; the tar builder (tar crate) is
modelled by the observable content it appends: a list of entries, each a
header together with its path and body bytes, plus a flag recording whether
the trailer was written (finish was called).
-/

namespace GixArchive

/-- Byte strings (bstr byte sequences, no assumed encoding). -/
abbrev ByteStr := List Nat

/-- Opaque payload of a stream error, as produced by next_entry. -/
abbrev StreamErr := Nat

/-- gix_object::tree::EntryMode, the kinds of tree entries. -/
inductive EntryMode where
  | Tree
  | Blob
  | BlobExecutable
  | Link
  | Commit
deriving DecidableEq

/-- tar::EntryType: the type flag stored in a tar header. Link is a hard
link, Symlink a symbolic link. -/
inductive EntryType where
  | Regular
  | Directory
  | Symlink
  | Link
deriving DecidableEq

/-- The fields of a tar::Header that write.rs touches. mtime is an Option:
none models the field as initialized by Header::new_gnu (never set). -/
structure Header where
  entry_type : EntryType
  mode : Nat
  mtime : Option Nat
  size : Nat
  link_name : Option ByteStr
deriving DecidableEq

/-- tar::Header::new_gnu(): a fresh header with all fields at their
defaults (zeroed bytes; a zero type flag denotes a regular entry). -/
def Header.new_gnu : Header :=
  { entry_type := EntryType.Regular
    mode := 0
    mtime := none
    size := 0
    link_name := none }

/-- One entry of the worktree stream: its mode, its repository-relative
path, and the bytes its content reader yields when fully drained (for a
symlink, those bytes are the link target). -/
structure Entry where
  mode : EntryMode
  relative_path : ByteStr
  content : ByteStr
deriving DecidableEq

/-- crate::Format, the output format selector. -/
inductive Format where
  | InternalTransientNonPersistable
  | Tar
deriving DecidableEq

/-- crate::Options: format, modification time (seconds relative to the Unix
epoch, negative meaning before the epoch), optional path prefix. -/
structure Options where
  format : Format
  modification_time : Int
  tree_prefix : Option ByteStr
deriving DecidableEq

/-- The worktree stream: the raw bytes its as_read_mut reader yields (used
by the passthrough format), the entries next_entry yields in order, and an
optional stream error reported after those entries (none means clean
exhaustion). -/
structure Stream where
  raw : ByteStr
  entries : List Entry
  terminal : Option StreamErr
deriving DecidableEq

/-- One record appended to the tar builder: the header as appended, the
archived path, and the body bytes that follow the header. -/
structure TarEntry where
  header : Header
  path : ByteStr
  body : ByteStr
deriving DecidableEq

/-- The observable outcome of write_stream: either the bytes copied
verbatim to the sink (passthrough), or the tar builder's appended entries,
whether finish was called (trailer written), and the error returned, if
any. -/
inductive WriteOutput where
  | passthrough (copied : ByteStr)
  | tar (appended : List TarEntry) (finished : Bool) (err : Option StreamErr)
deriving DecidableEq

/-- fn tar_entry_type of write.rs: the tar entry type derived from a tree
entry mode. Note it maps Link to the hard-link type; write_stream
overrides it to Symlink before appending a symlink entry. -/
def tar_entry_type : EntryMode → EntryType
  | EntryMode.Tree => EntryType.Directory
  | EntryMode.Commit => EntryType.Directory
  | EntryMode.Blob => EntryType.Regular
  | EntryMode.BlobExecutable => EntryType.Regular
  | EntryMode.Link => EntryType.Link

/-- fn add_prefix of write.rs: prepend the optional prefix to the relative
path by plain byte concatenation, no separator inserted. -/
def add_prefix (relative_path : ByteStr) (pfx : Option ByteStr) : ByteStr :=
  match pfx with
  | none => relative_path
  | some p => p ++ relative_path

/-- opts.modification_time.duration_since(UNIX_EPOCH).ok().map(as_secs):
some seconds when the time is at or after the epoch, none before it. -/
def mtime_seconds_since_epoch (modification_time : Int) : Option Nat :=
  if 0 ≤ modification_time then some modification_time.toNat else none

/-- The body of the tar loop of write_stream for one entry: build a GNU
header, set mtime when available, set the entry type from the mode, set the
permission bits, drain the content into the scratch buffer, compute the
archived path, declare the size, and either append a symlink entry (target
from the buffer, size zero, no body) or a data entry (buffer as body). -/
def frame_entry (mtime : Option Nat) (tp : Option ByteStr) (e : Entry) : TarEntry :=
  let h0 := Header.new_gnu
  let h1 :=
    match mtime with
    | some m => { h0 with mtime := some m }
    | none => h0
  let h2 := { h1 with entry_type := tar_entry_type e.mode }
  let h3 := { h2 with mode := if e.mode = EntryMode.BlobExecutable then 0o755 else 0o644 }
  let buf := e.content
  let path := add_prefix e.relative_path tp
  let h4 := { h3 with size := buf.length }
  if e.mode = EntryMode.Link then
    { header := { h4 with entry_type := EntryType.Symlink, size := 0, link_name := some buf }
      path := path
      body := [] }
  else
    { header := h4, path := path, body := buf }

/-- The while-let loop of write_stream: frame each yielded entry in order;
report the stream's terminal state (clean exhaustion or error) alongside
the appended entries. -/
def write_entries (mtime : Option Nat) (tp : Option ByteStr) :
    List Entry → Option StreamErr → List TarEntry × Option StreamErr
  | [], t => ([], t)
  | e :: rest, t =>
    let r := write_entries mtime tp rest t
    (frame_entry mtime tp e :: r.1, r.2)

/-- fn write_stream of write.rs. Passthrough: copy the raw reader to the
sink and return Ok. Tar: compute the uniform mtime once, frame every entry
the stream yields; on a stream error return it without calling finish; on
clean exhaustion call finish (trailer written) and return Ok. -/
def write_stream (stream : Stream) (opts : Options) : WriteOutput :=
  match opts.format with
  | Format.InternalTransientNonPersistable => WriteOutput.passthrough stream.raw
  | Format.Tar =>
    let mtime := mtime_seconds_since_epoch opts.modification_time
    let r := write_entries mtime opts.tree_prefix stream.entries stream.terminal
    match r.2 with
    | some e => WriteOutput.tar r.1 false (some e)
    | none => WriteOutput.tar r.1 true none

/-- The entries appended to the tar builder during a write (empty for the
passthrough format, which iterates no entries). -/
def framedEntries : WriteOutput → List TarEntry
  | WriteOutput.passthrough _ => []
  | WriteOutput.tar tes _ _ => tes

/-- Whether finish was called on the builder (trailer bytes written). -/
def writeFinished : WriteOutput → Bool
  | WriteOutput.passthrough _ => true
  | WriteOutput.tar _ f _ => f

/-- The error the write call returned, none on success. -/
def writeErr : WriteOutput → Option StreamErr
  | WriteOutput.passthrough _ => none
  | WriteOutput.tar _ _ e => e

/-- A sample executable-file entry used as concrete input. -/
def exeEntry : Entry := ⟨EntryMode.BlobExecutable, [97], [1, 2, 3]⟩

/-- A sample symlink entry whose content reader yields the target bytes. -/
def linkEntry : Entry := ⟨EntryMode.Link, [108], [116, 103, 116]⟩

/-- A sample stream yielding an executable file, then a symlink, then clean
exhaustion. -/
def sampleStream : Stream := ⟨[7, 7], [exeEntry, linkEntry], none⟩

/-- A sample stream that fails with error 42 after yielding one entry. -/
def errStream : Stream := ⟨[], [exeEntry], some 42⟩

/-- A sample stream that reports exhaustion immediately. -/
def emptyStream : Stream := ⟨[9], [], none⟩

theorem write_entries_eq (mtime : Option Nat) (tp : Option ByteStr)
    (es : List Entry) (t : Option StreamErr) :
    write_entries mtime tp es t = (es.map (frame_entry mtime tp), t) := by
  induction es with
  | nil => rfl
  | cons e rest ih => simp [write_entries, ih]

theorem write_stream_tar (s : Stream) (mt : Int) (tp : Option ByteStr) :
    write_stream s ⟨Format.Tar, mt, tp⟩ =
      WriteOutput.tar (s.entries.map (frame_entry (mtime_seconds_since_epoch mt) tp))
        s.terminal.isNone s.terminal := by
  unfold write_stream
  simp only [write_entries_eq]
  cases s.terminal <;> rfl

theorem frame_entry_mode (m : Option Nat) (tp : Option ByteStr) (e : Entry) :
    (frame_entry m tp e).header.mode =
      (if e.mode = EntryMode.BlobExecutable then 0o755 else 0o644) := by
  obtain ⟨mo, rp, c⟩ := e
  cases mo <;> cases m <;> rfl

theorem frame_entry_mtime (m : Option Nat) (tp : Option ByteStr) (e : Entry) :
    (frame_entry m tp e).header.mtime = m := by
  obtain ⟨mo, rp, c⟩ := e
  cases mo <;> cases m <;> rfl

theorem frame_entry_path (m : Option Nat) (tp : Option ByteStr) (e : Entry) :
    (frame_entry m tp e).path = add_prefix e.relative_path tp := by
  obtain ⟨mo, rp, c⟩ := e
  cases mo <;> cases m <;> rfl

theorem frame_entry_size_body (m : Option Nat) (tp : Option ByteStr) (e : Entry) :
    (frame_entry m tp e).header.size =
        (if e.mode = EntryMode.Link then 0 else e.content.length) ∧
      (frame_entry m tp e).body =
        (if e.mode = EntryMode.Link then [] else e.content) := by
  obtain ⟨mo, rp, c⟩ := e
  cases mo <;> cases m <;> exact ⟨rfl, rfl⟩

theorem frame_entry_link (m : Option Nat) (tp : Option ByteStr) (e : Entry)
    (h : e.mode = EntryMode.Link) :
    (frame_entry m tp e).header.link_name = some e.content ∧
      (frame_entry m tp e).header.entry_type = EntryType.Symlink := by
  obtain ⟨mo, rp, c⟩ := e
  cases mo <;> cases m <;> simp_all <;> exact ⟨rfl, rfl⟩

theorem frame_entry_type_eq (m : Option Nat) (tp : Option ByteStr) (e : Entry) :
    (frame_entry m tp e).header.entry_type =
      (if e.mode = EntryMode.Link then EntryType.Symlink else tar_entry_type e.mode) := by
  obtain ⟨mo, rp, c⟩ := e
  cases mo <;> cases m <;> rfl

theorem framed_at (s : Stream) (mt : Int) (tp : Option ByteStr)
    (i : Nat) (e : Entry) (he : s.entries[i]? = some e) :
    (framedEntries (write_stream s ⟨Format.Tar, mt, tp⟩))[i]? =
      some (frame_entry (mtime_seconds_since_epoch mt) tp e) := by
  rw [write_stream_tar]
  simp [framedEntries, he]

/-- Claim C1 counterexample: a directory (Tree) entry framed by
write_stream receives the explicitly set permission bits 0o644 in its
header, which differ from the header's default (implicit) mode, refuting
the claim that directory and symlink entries keep the format's implicit
default permission bits rather than an explicitly set mode. -/
theorem C1_counterexample :
    framedEntries (write_stream ⟨[], [⟨EntryMode.Tree, [], []⟩], none⟩
        ⟨Format.Tar, 0, none⟩) =
      [⟨⟨EntryType.Directory, 0o644, some 0, 0, none⟩, [], []⟩] ∧
      Header.new_gnu.mode ≠ 0o644 :=
  ⟨by decide, by decide⟩

/-- Claim C1 (amended): for every entry framed by write_stream in the tar
format, the header's permission bits are explicitly set to 0o755 when the
entry's mode is ExecutableFile and 0o644 for every other mode — including
directory and symlink entries, which also receive 0o644 rather than the
format's implicit defaults. -/
theorem C1_tar_permission_bits (s : Stream) (mt : Int) (tp : Option ByteStr)
    (i : Nat) (e : Entry) (he : s.entries[i]? = some e) :
    (framedEntries (write_stream s ⟨Format.Tar, mt, tp⟩))[i]? =
        some (frame_entry (mtime_seconds_since_epoch mt) tp e) ∧
      (frame_entry (mtime_seconds_since_epoch mt) tp e).header.mode =
        (if e.mode = EntryMode.BlobExecutable then 0o755 else 0o644) :=
  ⟨framed_at s mt tp i e he, frame_entry_mode _ tp e⟩

/-- Witness for C1 at a concrete executable entry. -/
theorem C1_tar_permission_bits_witness :
    sampleStream.entries[0]? = some exeEntry ∧
      ((framedEntries (write_stream sampleStream ⟨Format.Tar, 5, none⟩))[0]? =
          some (frame_entry (mtime_seconds_since_epoch 5) none exeEntry) ∧
        (frame_entry (mtime_seconds_since_epoch 5) none exeEntry).header.mode =
          (if exeEntry.mode = EntryMode.BlobExecutable then 0o755 else 0o644)) :=
  ⟨by decide, C1_tar_permission_bits sampleStream 5 none 0 exeEntry (by decide)⟩

/-- Claim C2: for every entry on the framed (tar) path, the header's
declared size equals the number of body bytes appended, except that a
symlink entry declares size zero, carries its target in the header's
link-target field, and has no body bytes. -/
theorem C2_size_invariant (s : Stream) (mt : Int) (tp : Option ByteStr)
    (i : Nat) (e : Entry) (he : s.entries[i]? = some e) :
    (framedEntries (write_stream s ⟨Format.Tar, mt, tp⟩))[i]? =
        some (frame_entry (mtime_seconds_since_epoch mt) tp e) ∧
      (e.mode ≠ EntryMode.Link →
        (frame_entry (mtime_seconds_since_epoch mt) tp e).header.size =
          (frame_entry (mtime_seconds_since_epoch mt) tp e).body.length) ∧
      (e.mode = EntryMode.Link →
        (frame_entry (mtime_seconds_since_epoch mt) tp e).header.size = 0 ∧
        (frame_entry (mtime_seconds_since_epoch mt) tp e).body = [] ∧
        (frame_entry (mtime_seconds_since_epoch mt) tp e).header.link_name =
          some e.content) := by
  obtain ⟨hs, hb⟩ := frame_entry_size_body (mtime_seconds_since_epoch mt) tp e
  refine ⟨framed_at s mt tp i e he, ?_, ?_⟩
  · intro h
    rw [hs, hb, if_neg h, if_neg h]
  · intro h
    obtain ⟨hl, _⟩ := frame_entry_link (mtime_seconds_since_epoch mt) tp e h
    exact ⟨by rw [hs, if_pos h], by rw [hb, if_pos h], hl⟩

/-- Witness for C2 at a concrete symlink entry. -/
theorem C2_size_invariant_witness :
    sampleStream.entries[1]? = some linkEntry ∧
      ((framedEntries (write_stream sampleStream ⟨Format.Tar, 5, none⟩))[1]? =
          some (frame_entry (mtime_seconds_since_epoch 5) none linkEntry) ∧
        (linkEntry.mode ≠ EntryMode.Link →
          (frame_entry (mtime_seconds_since_epoch 5) none linkEntry).header.size =
            (frame_entry (mtime_seconds_since_epoch 5) none linkEntry).body.length) ∧
        (linkEntry.mode = EntryMode.Link →
          (frame_entry (mtime_seconds_since_epoch 5) none linkEntry).header.size = 0 ∧
          (frame_entry (mtime_seconds_since_epoch 5) none linkEntry).body = [] ∧
          (frame_entry (mtime_seconds_since_epoch 5) none linkEntry).header.link_name =
            some linkEntry.content)) :=
  ⟨by decide, C2_size_invariant sampleStream 5 none 1 linkEntry (by decide)⟩

/-- Claim C3: for every symlink entry consumed on the tar path, the drained
content bytes become the header's link-target, the declared size is zero, a
symlink-typed entry is appended, and it has no body bytes. -/
theorem C3_symlink_framing (s : Stream) (mt : Int) (tp : Option ByteStr)
    (i : Nat) (e : Entry) (he : s.entries[i]? = some e)
    (hl : e.mode = EntryMode.Link) :
    (framedEntries (write_stream s ⟨Format.Tar, mt, tp⟩))[i]? =
        some (frame_entry (mtime_seconds_since_epoch mt) tp e) ∧
      (frame_entry (mtime_seconds_since_epoch mt) tp e).header.link_name =
        some e.content ∧
      (frame_entry (mtime_seconds_since_epoch mt) tp e).header.size = 0 ∧
      (frame_entry (mtime_seconds_since_epoch mt) tp e).header.entry_type =
        EntryType.Symlink ∧
      (frame_entry (mtime_seconds_since_epoch mt) tp e).body = [] := by
  obtain ⟨hn, hty⟩ := frame_entry_link (mtime_seconds_since_epoch mt) tp e hl
  obtain ⟨hs, hb⟩ := frame_entry_size_body (mtime_seconds_since_epoch mt) tp e
  exact ⟨framed_at s mt tp i e he, hn, by rw [hs, if_pos hl], hty, by rw [hb, if_pos hl]⟩

/-- Witness for C3 at a concrete symlink entry. -/
theorem C3_symlink_framing_witness :
    sampleStream.entries[1]? = some linkEntry ∧
      linkEntry.mode = EntryMode.Link ∧
      ((framedEntries (write_stream sampleStream ⟨Format.Tar, 5, none⟩))[1]? =
          some (frame_entry (mtime_seconds_since_epoch 5) none linkEntry) ∧
        (frame_entry (mtime_seconds_since_epoch 5) none linkEntry).header.link_name =
          some linkEntry.content ∧
        (frame_entry (mtime_seconds_since_epoch 5) none linkEntry).header.size = 0 ∧
        (frame_entry (mtime_seconds_since_epoch 5) none linkEntry).header.entry_type =
          EntryType.Symlink ∧
        (frame_entry (mtime_seconds_since_epoch 5) none linkEntry).body = []) :=
  ⟨by decide, by decide,
    C3_symlink_framing sampleStream 5 none 1 linkEntry (by decide) (by decide)⟩

/-- Claim C4: if the stream fails after yielding N entries, write_stream on
the tar path returns that stream error, appends exactly the N already
framed entries and nothing further, and never calls finish on the builder
(finished is false). -/
theorem C4_stream_error_aborts (s : Stream) (mt : Int) (tp : Option ByteStr)
    (err : StreamErr) (ht : s.terminal = some err) :
    write_stream s ⟨Format.Tar, mt, tp⟩ =
      WriteOutput.tar (s.entries.map (frame_entry (mtime_seconds_since_epoch mt) tp))
        false (some err) := by
  rw [write_stream_tar, ht]
  rfl

/-- Witness for C4 at a concrete failing stream. -/
theorem C4_stream_error_aborts_witness :
    errStream.terminal = some 42 ∧
      write_stream errStream ⟨Format.Tar, 5, none⟩ =
        WriteOutput.tar
          (errStream.entries.map (frame_entry (mtime_seconds_since_epoch 5) none))
          false (some 42) :=
  ⟨by decide, C4_stream_error_aborts errStream 5 none 42 (by decide)⟩

/-- Claim C5: for the passthrough (internal) format, the bytes written to
the sink are exactly the stream's raw reader bytes with no framing, no
entry iteration occurs (no tar entries are appended), and the call returns
success. -/
theorem C5_passthrough_fidelity (s : Stream) (mt : Int) (tp : Option ByteStr) :
    write_stream s ⟨Format.InternalTransientNonPersistable, mt, tp⟩ =
        WriteOutput.passthrough s.raw ∧
      framedEntries (write_stream s ⟨Format.InternalTransientNonPersistable, mt, tp⟩) = [] ∧
      writeErr (write_stream s ⟨Format.InternalTransientNonPersistable, mt, tp⟩) = none :=
  ⟨rfl, rfl, rfl⟩

/-- Claim C6: when the modification time is at or after the Unix epoch,
its value in seconds since the epoch is applied uniformly as the header
mtime of every entry framed by write_stream — the same value, independent
of the entry and its position. -/
theorem C6_uniform_mtime (s : Stream) (mt : Int) (tp : Option ByteStr)
    (hmt : 0 ≤ mt) (i : Nat) (e : Entry) (he : s.entries[i]? = some e) :
    (framedEntries (write_stream s ⟨Format.Tar, mt, tp⟩))[i]? =
        some (frame_entry (mtime_seconds_since_epoch mt) tp e) ∧
      (frame_entry (mtime_seconds_since_epoch mt) tp e).header.mtime =
        some mt.toNat := by
  refine ⟨framed_at s mt tp i e he, ?_⟩
  rw [frame_entry_mtime, mtime_seconds_since_epoch, if_pos hmt]

/-- Witness for C6 at a concrete entry and time. -/
theorem C6_uniform_mtime_witness :
    (0 : Int) ≤ 5 ∧ sampleStream.entries[0]? = some exeEntry ∧
      ((framedEntries (write_stream sampleStream ⟨Format.Tar, 5, none⟩))[0]? =
          some (frame_entry (mtime_seconds_since_epoch 5) none exeEntry) ∧
        (frame_entry (mtime_seconds_since_epoch 5) none exeEntry).header.mtime =
          some (Int.toNat 5)) :=
  ⟨by decide, by decide,
    C6_uniform_mtime sampleStream 5 none (by decide) 0 exeEntry (by decide)⟩

/-- Claim C7: every entry appended by write_stream carries the entry type
determined from its mode: Tree and Commit map to Directory, Blob and
BlobExecutable map to Regular, and Link (symlink) maps to Symlink (note
that tar_entry_type alone sends Link to the hard-link type; write_stream
overrides it to Symlink before appending). -/
theorem C7_entry_type_mapping (s : Stream) (mt : Int) (tp : Option ByteStr)
    (i : Nat) (e : Entry) (he : s.entries[i]? = some e) :
    (framedEntries (write_stream s ⟨Format.Tar, mt, tp⟩))[i]? =
        some (frame_entry (mtime_seconds_since_epoch mt) tp e) ∧
      (frame_entry (mtime_seconds_since_epoch mt) tp e).header.entry_type =
        (match e.mode with
          | EntryMode.Tree => EntryType.Directory
          | EntryMode.Commit => EntryType.Directory
          | EntryMode.Blob => EntryType.Regular
          | EntryMode.BlobExecutable => EntryType.Regular
          | EntryMode.Link => EntryType.Symlink) := by
  refine ⟨framed_at s mt tp i e he, ?_⟩
  rw [frame_entry_type_eq]
  obtain ⟨mo, rp, c⟩ := e
  cases mo <;> rfl

/-- Witness for C7 at a concrete symlink entry. -/
theorem C7_entry_type_mapping_witness :
    sampleStream.entries[1]? = some linkEntry ∧
      ((framedEntries (write_stream sampleStream ⟨Format.Tar, 5, none⟩))[1]? =
          some (frame_entry (mtime_seconds_since_epoch 5) none linkEntry) ∧
        (frame_entry (mtime_seconds_since_epoch 5) none linkEntry).header.entry_type =
          (match linkEntry.mode with
            | EntryMode.Tree => EntryType.Directory
            | EntryMode.Commit => EntryType.Directory
            | EntryMode.Blob => EntryType.Regular
            | EntryMode.BlobExecutable => EntryType.Regular
            | EntryMode.Link => EntryType.Symlink)) :=
  ⟨by decide, C7_entry_type_mapping sampleStream 5 none 1 linkEntry (by decide)⟩

/-- Claim C8: the archived path of every framed entry is the byte-string
concatenation of the optional tree prefix with the entry's relative path,
no separator inserted; with no prefix, the relative path is unchanged. -/
theorem C8_prefix_concatenation (s : Stream) (mt : Int) (tp : Option ByteStr)
    (i : Nat) (e : Entry) (he : s.entries[i]? = some e) :
    (framedEntries (write_stream s ⟨Format.Tar, mt, tp⟩))[i]? =
        some (frame_entry (mtime_seconds_since_epoch mt) tp e) ∧
      (frame_entry (mtime_seconds_since_epoch mt) tp e).path =
        add_prefix e.relative_path tp ∧
      (∀ p : ByteStr, add_prefix e.relative_path (some p) = p ++ e.relative_path) ∧
      add_prefix e.relative_path none = e.relative_path :=
  ⟨framed_at s mt tp i e he, frame_entry_path _ tp e, fun _ => rfl, rfl⟩

/-- Witness for C8 at a concrete entry with prefix bytes "r/". -/
theorem C8_prefix_concatenation_witness :
    sampleStream.entries[0]? = some exeEntry ∧
      ((framedEntries (write_stream sampleStream ⟨Format.Tar, 5, some [114, 47]⟩))[0]? =
          some (frame_entry (mtime_seconds_since_epoch 5) (some [114, 47]) exeEntry) ∧
        (frame_entry (mtime_seconds_since_epoch 5) (some [114, 47]) exeEntry).path =
          add_prefix exeEntry.relative_path (some [114, 47]) ∧
        (∀ p : ByteStr, add_prefix exeEntry.relative_path (some p) =
          p ++ exeEntry.relative_path) ∧
        add_prefix exeEntry.relative_path none = exeEntry.relative_path) :=
  ⟨by decide,
    C8_prefix_concatenation sampleStream 5 (some [114, 47]) 0 exeEntry (by decide)⟩

/-- Claim C9: an empty stream on the tar path appends no entries, still
calls finish so the trailer is written, and returns success — a valid
archive holding zero entries. -/
theorem C9_empty_stream (s : Stream) (mt : Int) (tp : Option ByteStr)
    (he : s.entries = []) (ht : s.terminal = none) :
    write_stream s ⟨Format.Tar, mt, tp⟩ = WriteOutput.tar [] true none ∧
      framedEntries (write_stream s ⟨Format.Tar, mt, tp⟩) = [] ∧
      writeFinished (write_stream s ⟨Format.Tar, mt, tp⟩) = true ∧
      writeErr (write_stream s ⟨Format.Tar, mt, tp⟩) = none := by
  have h := write_stream_tar s mt tp
  rw [he, ht] at h
  exact ⟨h, by rw [h]; rfl, by rw [h]; rfl, by rw [h]; rfl⟩

/-- Witness for C9 at a concrete empty stream. -/
theorem C9_empty_stream_witness :
    emptyStream.entries = [] ∧ emptyStream.terminal = none ∧
      (write_stream emptyStream ⟨Format.Tar, 5, none⟩ = WriteOutput.tar [] true none ∧
        framedEntries (write_stream emptyStream ⟨Format.Tar, 5, none⟩) = [] ∧
        writeFinished (write_stream emptyStream ⟨Format.Tar, 5, none⟩) = true ∧
        writeErr (write_stream emptyStream ⟨Format.Tar, 5, none⟩) = none) :=
  ⟨by decide, by decide, C9_empty_stream emptyStream 5 none (by decide) (by decide)⟩

/-- Claim C10: a modification time before the Unix epoch does not make
write_stream fail: the conversion yields none, so no header mtime is set
(each header keeps its new_gnu default), and with a clean stream the write
still returns success. -/
theorem C10_pre_epoch_mtime (s : Stream) (mt : Int) (tp : Option ByteStr)
    (hneg : mt < 0) (i : Nat) (e : Entry) (he : s.entries[i]? = some e) :
    mtime_seconds_since_epoch mt = none ∧
      (framedEntries (write_stream s ⟨Format.Tar, mt, tp⟩))[i]? =
        some (frame_entry (mtime_seconds_since_epoch mt) tp e) ∧
      (frame_entry (mtime_seconds_since_epoch mt) tp e).header.mtime =
        Header.new_gnu.mtime ∧
      (s.terminal = none → writeErr (write_stream s ⟨Format.Tar, mt, tp⟩) = none) := by
  have hm : mtime_seconds_since_epoch mt = none := by
    rw [mtime_seconds_since_epoch, if_neg (not_le.mpr hneg)]
  refine ⟨hm, framed_at s mt tp i e he, ?_, ?_⟩
  · rw [frame_entry_mtime, hm]
    rfl
  · intro ht
    rw [write_stream_tar, ht]
    rfl

/-- Witness for C10 at a concrete pre-epoch time. -/
theorem C10_pre_epoch_mtime_witness :
    (-3 : Int) < 0 ∧ sampleStream.entries[0]? = some exeEntry ∧
      (mtime_seconds_since_epoch (-3) = none ∧
        (framedEntries (write_stream sampleStream ⟨Format.Tar, -3, none⟩))[0]? =
          some (frame_entry (mtime_seconds_since_epoch (-3)) none exeEntry) ∧
        (frame_entry (mtime_seconds_since_epoch (-3)) none exeEntry).header.mtime =
          Header.new_gnu.mtime ∧
        (sampleStream.terminal = none →
          writeErr (write_stream sampleStream ⟨Format.Tar, -3, none⟩) = none)) :=
  ⟨by decide, by decide,
    C10_pre_epoch_mtime sampleStream (-3) none (by decide) 0 exeEntry (by decide)⟩

end GixArchive
